import Mathlib

/-!
Shallow embedding of the order-cancellation service with Axiom log
integration, together with proofs of the specification claims.

The embedding follows the TypeScript sources:
* `src/cancelation.service.ts` — cancellation business rule and the
  construction of attempt-log records;
* `src/axiom/client.ts` — remote log-store client (`ingestEvents`,
  `queryWithAPL`, `checkHealth`);
* `src/axiom/cancellation-log.service.ts` — log service (recording,
  listing with client-side filtering, pagination helper, statistics);
* `src/axiom/health-check.ts` — health monitor (`check` and its
  event emissions).

TypeScript numbers are modelled as rationals (`ℚ`), strings as `String`,
optional fields as `Option`, promise rejection as `Except` values, and
the behaviour of the external Axiom store as explicit input data (the
sequence of responses it would give to successive calls).
-/

namespace AxiomIntegration

/-- `interface Order` from `src/cancelation.service.ts`. -/
structure Order where
  id : String
  totalAmount : ℚ
  status : String
deriving Repr, DecidableEq

/-- Result shape of `CancelationService.cancelOrder`: optional fields are
absent (`none`) exactly when the TypeScript object omits the key. -/
structure CancelResult where
  success : Bool
  message : String
  tax : Option ℚ := none
  order : Option Order := none
deriving Repr, DecidableEq

/-- Message of the amount-limit failure branch of `cancelOrder`. -/
def msgAboveLimit : String :=
  "Não é possível cancelar pedidos com valor acima de R$ 1.000,00"

/-- Message of the already-cancelled failure branch of `cancelOrder`. -/
def msgAlreadyCanceled : String := "Pedido já está cancelado"

/-- Message of the success branch of `cancelOrder`. -/
def msgCancelSuccess : String := "Pedido cancelado com sucesso"

/-- `CancelationService.canCancelOrder`: an order is cancellable exactly
when its total amount is at most 1000. -/
def canCancelOrder (order : Order) : Bool :=
  order.totalAmount ≤ 1000

/-- `CancelationService.cancelOrder` (the returned result object; the log
side effect is modelled separately by `cancelOrderLogData`). -/
def cancelOrder (order : Order) : CancelResult :=
  if !canCancelOrder order then
    { success := false, message := msgAboveLimit }
  else if order.status == "CANCELED" then
    { success := false, message := msgAlreadyCanceled }
  else
    let taxForCancel := order.totalAmount / 10
    let canceledOrder : Order := { order with status := "CANCELED" }
    { success := true
      message := msgCancelSuccess
      tax := some taxForCancel
      order := some canceledOrder }

/-- State-passing view of the call `cancelOrder(order)`: the source never
assigns to `order` or its fields (the cancelled order is a fresh object
built with a spread, `{...order, status: "CANCELED"}`), so the caller's
order object after the call is the argument unchanged. -/
def cancelOrderCall (order : Order) : CancelResult × Order :=
  (cancelOrder order, order)

/-- Argument object passed to the private
`CancelationService.logCancellationAttempt`. -/
structure LogData where
  success : Bool
  message : String
  orderId : String
  totalAmount : ℚ
  orderStatus : String
  tax : Option ℚ := none
  failureReason : Option String := none
deriving Repr, DecidableEq

/-- `interface CancellationLog` from `src/axiom/interfaces`; raw records
read back from the store may lack any field, so `success` is an
`Option Bool` (records built by this system always carry `some b`). -/
structure CancellationLog where
  orderId : String
  totalAmount : ℚ
  orderStatus : String
  success : Option Bool
  message : String
  tax : Option ℚ := none
  timestamp : Option String := none
  failureReason : Option String := none
  clientIp : Option String := none
  userAgent : Option String := none
deriving Repr, DecidableEq

/-- JavaScript truthiness of an optional string
(`undefined` and `""` are falsy). -/
def strTruthy : Option String → Bool
  | none => false
  | some s => s ≠ ""

/-- The record built by `CancelationService.logCancellationAttempt`
(`src/cancelation.service.ts`, lines 127–151): `tax` is copied only when
`success && tax !== undefined`, `failureReason` only when
`!success && failureReason` is truthy; `now` stands for
`new Date().toISOString()` (server-side, so no `userAgent`). -/
def buildAttemptLog (logData : LogData) (now : String) : CancellationLog :=
  let base : CancellationLog :=
    { orderId := logData.orderId
      totalAmount := logData.totalAmount
      orderStatus := logData.orderStatus
      success := some logData.success
      message := logData.message
      timestamp := some now }
  let withTax :=
    if logData.success ∧ logData.tax.isSome then
      { base with tax := logData.tax }
    else base
  if ¬ logData.success ∧ strTruthy logData.failureReason then
    { withTax with failureReason := logData.failureReason }
  else withTax

/-- The `logData` argument `cancelOrder` passes to
`logCancellationAttempt` on each of its three branches. -/
def cancelOrderLogData (order : Order) : LogData :=
  if !canCancelOrder order then
    { success := false, message := msgAboveLimit
      orderId := order.id, totalAmount := order.totalAmount
      orderStatus := order.status
      failureReason := some "Valor acima do limite permitido" }
  else if order.status == "CANCELED" then
    { success := false, message := msgAlreadyCanceled
      orderId := order.id, totalAmount := order.totalAmount
      orderStatus := order.status
      failureReason := some "Pedido já cancelado" }
  else
    { success := true, message := msgCancelSuccess
      orderId := order.id, totalAmount := order.totalAmount
      orderStatus := "CANCELED"
      tax := some (order.totalAmount / 10) }

/-! ## Remote log store client (`src/axiom/client.ts`) -/

/-- Outcome of the underlying `axiom.ingest` transport call: it either
succeeds or rejects with an error message. -/
inductive IngestOutcome where
  | ok : IngestOutcome
  | err (msg : String) : IngestOutcome
deriving Repr, DecidableEq

/-- Result shape of `AxiomClient.ingestEvents`. -/
structure IngestResult where
  ingested : Nat
  failed : Nat
  failures : List String
deriving Repr, DecidableEq

/-- `AxiomClient.ingestEvents` (`src/axiom/client.ts`, lines 54–82): the
transport call is a parameter; on success all events count as ingested,
and any rejection is caught, never re-raised, yielding
`{ingested := 0, failed := events.length, failures := [error]}`. -/
def ingestEvents (events : List CancellationLog) (transport : IngestOutcome) :
    IngestResult :=
  match transport with
  | .ok => { ingested := events.length, failed := 0, failures := [] }
  | .err m => { ingested := 0, failed := events.length, failures := [m] }

/-- One response page of the remote store: the matched records (the
source field `matches`, a reserved word in Lean, with the `.data`
extraction of line 199 applied) plus the optional continuation token
found at `result.status?.continuationToken`. -/
structure QueryPage where
  matchesList : List CancellationLog
  continuationToken : Option String := none
deriving Repr, DecidableEq

/-- `AxiomClient.queryWithAPL` (`src/axiom/client.ts`, lines 92–111): the
backend response is a parameter; a successful response is returned as is
and a rejection is logged and re-raised unchanged (`throw error`). -/
def queryWithAPL (backend : Except String QueryPage) :
    Except String QueryPage :=
  match backend with
  | .ok page => .ok page
  | .error e => .error e

/-! ## Log service (`src/axiom/cancellation-log.service.ts`) -/

/-- `CancellationLogService.logCancellationAttempt` (lines 32–54): stamps
the timestamp (`log.timestamp || now`), sends the single-element batch to
`ingestEvents`, and returns whether `result.ingested > 0`; any raised
error is caught and `false` returned (in this model `ingestEvents` is
total, so the catch branch is unreachable). -/
def logCancellationAttempt (log : CancellationLog) (now : String)
    (transport : IngestOutcome) : Bool :=
  let logWithTimestamp :=
    { log with timestamp := some (log.timestamp.getD now) }
  (ingestEvents [logWithTimestamp] transport).ingested > 0

/-- JavaScript truthiness of the optional `limit` argument of
`queryCancellationLogs` (`limit && ...`): `undefined` and `0` are falsy. -/
def limitReached (limit? : Option Nat) (n : Nat) : Bool :=
  match limit? with
  | none => false
  | some l => l ≠ 0 ∧ l ≤ n

/-- The pagination `do … while (continuationToken)` loop inside
`CancellationLogService.queryCancellationLogs` (lines 183–211).
`responses` lists the store's responses to the successive
`queryWithAPL` calls (an empty remainder, which cannot arise with a real
store, stops the loop). After appending a page the loop first truncates
and breaks if the accumulated count has reached a truthy `limit?`, and
otherwise continues exactly when the page carried a continuation token. -/
def fetchLoop (limit? : Option Nat) :
    List (Except String QueryPage) → List CancellationLog →
    Except String (List CancellationLog)
  | [], acc => .ok acc
  | resp :: rest, acc =>
    match queryWithAPL resp with
    | .error e => .error e
    | .ok page =>
      let acc2 := acc ++ page.matchesList
      if limitReached limit? acc2.length then
        .ok (acc2.take (limit?.getD 0))
      else
        match page.continuationToken with
        | some _ => fetchLoop limit? rest acc2
        | none => .ok acc2

/-- `CancellationLogService.queryCancellationLogs` (lines 169–219): runs
the pagination loop and wraps any raised error with context before
re-raising. -/
def queryCancellationLogs (limit? : Option Nat)
    (responses : List (Except String QueryPage)) :
    Except String (List CancellationLog) :=
  match fetchLoop limit? responses [] with
  | .ok logs => .ok logs
  | .error e => .error ("Failed to query cancellation logs: " ++ e)

/-- The APL query string built by `getSuccessfulCancellations`
(line 69). -/
def successQuery (datasetName : String) (limit : Nat) : String :=
  "[\x27" ++ datasetName ++ "\x27] | limit " ++ toString limit

/-- The APL query string built by `getFailedCancellations` (line 90). -/
def failedQuery (datasetName : String) (limit : Nat) : String :=
  "[\x27" ++ datasetName ++ "\x27] | limit " ++ toString limit

/-- A model of the external store during one service call: the sequence
of responses it gives to the successive queries with a given APL string. -/
def Store : Type := String → List (Except String QueryPage)

/-- `CancellationLogService.getSuccessfulCancellations` (lines 63–75):
sends the `successQuery` string to the store and pages through its
responses via the pagination helper — note: without passing the `limit`
argument, which only appears inside the query string — then filters the
fetched records client-side by `log.success === true`. -/
def getSuccessfulCancellations (datasetName : String) (limit : Nat)
    (store : Store) : Except String (List CancellationLog) :=
  (queryCancellationLogs none (store (successQuery datasetName limit))).map
    (List.filter fun log => log.success == some true)

/-- `CancellationLogService.getFailedCancellations` (lines 84–96):
the same shape of query, filtering by `log.success === false`. -/
def getFailedCancellations (datasetName : String) (limit : Nat)
    (store : Store) : Except String (List CancellationLog) :=
  (queryCancellationLogs none (store (failedQuery datasetName limit))).map
    (List.filter fun log => log.success == some false)

/-- `interface CancellationStats` from `src/axiom/interfaces`. -/
structure CancellationStats where
  totalAttempts : Nat
  successfulCancellations : Nat
  failedCancellations : Nat
  successRate : ℚ
  averageTax : ℚ
  totalTaxCollected : ℚ
  averageOrderAmount : ℚ
  topFailureReason : Option String := none
deriving Repr, DecidableEq

/-- The failure-reason tally of `getCancellationStats` (lines 131–135):
a `Record<string, number>` built by insertion order. -/
def tallyReasons (reasons : List String) : List (String × Nat) :=
  reasons.foldl
    (fun counts reason =>
      if counts.any (fun p => p.1 == reason) then
        counts.map (fun p => if p.1 == reason then (p.1, p.2 + 1) else p)
      else counts ++ [(reason, 1)])
    []

/-- The `forEach` scan of lines 137–145: the first reason whose count
strictly exceeds every earlier count (`maxCount` starts at 0). -/
def topReasonOf (counts : List (String × Nat)) : Option String :=
  (counts.foldl
      (fun best p =>
        match best with
        | none => if p.2 > 0 then some p else none
        | some b => if p.2 > b.2 then some p else some b)
      none).map Prod.fst

/-- The statistics computation of `getCancellationStats` (lines 116–156)
applied to the fetched records. -/
def computeStats (logs : List CancellationLog) : CancellationStats :=
  let successfulLogs := logs.filter fun log => log.success == some true
  let failedLogs := logs.filter fun log => log.success == some false
  let totalAttempts := logs.length
  let successfulCancellations := successfulLogs.length
  let failedCancellations := failedLogs.length
  let totalTaxCollected :=
    successfulLogs.foldl (fun sum log => sum + log.tax.getD 0) (0 : ℚ)
  let totalOrderAmount :=
    logs.foldl (fun sum log => sum + log.totalAmount) (0 : ℚ)
  let successRate :=
    if totalAttempts > 0 then
      (successfulCancellations : ℚ) / totalAttempts else 0
  let averageTax :=
    if successfulCancellations > 0 then
      totalTaxCollected / successfulCancellations else 0
  let averageOrderAmount :=
    if totalAttempts > 0 then totalOrderAmount / totalAttempts else 0
  let failureReasons :=
    failedLogs.map fun log =>
      if strTruthy log.failureReason then log.failureReason.getD "Unknown"
      else "Unknown"
  { totalAttempts := totalAttempts
    successfulCancellations := successfulCancellations
    failedCancellations := failedCancellations
    successRate := successRate
    averageTax := averageTax
    totalTaxCollected := totalTaxCollected
    averageOrderAmount := averageOrderAmount
    topFailureReason := topReasonOf (tallyReasons failureReasons) }

/-- The fixed APL query string built by `getCancellationStats`
(line 110). -/
def statsQuery (datasetName : String) : String :=
  "[\x27" ++ datasetName ++ "\x27] | limit 1000"

/-- `CancellationLogService.getCancellationStats` (lines 104–163):
fetches with the fixed `limit 1000` query (again no client-side limit
argument), computes the statistics, and wraps and re-raises any error. -/
def getCancellationStats (datasetName : String) (store : Store) :
    Except String CancellationStats :=
  match (queryCancellationLogs none (store (statsQuery datasetName))).map
      computeStats with
  | .ok stats => .ok stats
  | .error e => .error ("Failed to get cancellation statistics: " ++ e)

/-! ## Health monitor (`src/axiom/health-check.ts`) -/

/-- `enum HealthStatus`. -/
inductive HealthStatus where
  | healthy
  | unhealthy
  | unknown
deriving Repr, DecidableEq

/-- Outcome of one `axiomClient.checkHealth()` call as observed by the
monitor: a boolean result, or a rejection. -/
inductive ProbeOutcome where
  | ok (b : Bool)
  | err
deriving Repr, DecidableEq

/-- The notifications `AxiomHealthCheck` can emit: `STATUS_CHANGED` with
its `{oldStatus, newStatus, timestamp}` payload, and the payload-free
status-specific `HEALTHY` / `UNHEALTHY` notifications. -/
inductive HCEvent where
  | statusChanged (oldStatus newStatus : HealthStatus) (timestamp : Nat)
  | healthyEvt
  | unhealthyEvt
deriving Repr, DecidableEq

/-- `AxiomHealthCheck.check` (`src/axiom/health-check.ts`, lines 89–120):
given the stored status and the probe outcome, returns the new stored
status and the list of emitted notifications, in emission order; `t`
stands for the `new Date().toISOString()` timestamp of the check. -/
def check (st : HealthStatus) (t : Nat) : ProbeOutcome → HealthStatus × List HCEvent
  | .ok isHealthy =>
    let newStatus := if isHealthy then HealthStatus.healthy else HealthStatus.unhealthy
    if newStatus ≠ st then
      (newStatus,
        [HCEvent.statusChanged st newStatus t,
         if newStatus = HealthStatus.healthy then HCEvent.healthyEvt
         else HCEvent.unhealthyEvt])
    else (st, [])
  | .err => (HealthStatus.unhealthy, [HCEvent.unhealthyEvt])

/-- A sequence of `check` calls starting from stored status `st` at time
`t` (successive checks get successive timestamps): the concatenated list
of emitted notifications. -/
def runChecks (st : HealthStatus) (t : Nat) : List ProbeOutcome → List HCEvent
  | [] => []
  | o :: os =>
    let step := check st t o
    step.2 ++ runChecks step.1 (t + 1) os

/-- Stored status after a sequence of `check` calls. -/
def statusAfter (st : HealthStatus) : List ProbeOutcome → HealthStatus
  | [] => st
  | o :: os => statusAfter (check st 0 o).1 os

/-- Whether a notification is a `STATUS_CHANGED` one. -/
def isStatusChanged : HCEvent → Bool
  | .statusChanged _ _ _ => true
  | _ => false

/-- Number of `STATUS_CHANGED` notifications in an emission list. -/
def countStatusChanged (events : List HCEvent) : Nat :=
  (events.filter isStatusChanged).length

/-! ## Derived definitions used by the statements -/

/-- The raw record sequence the pagination loop accumulates when called
with no client-side limit: each page's matches, continuing exactly while
pages carry a continuation token. -/
def rawFetch : List QueryPage → List CancellationLog
  | [] => []
  | p :: rest =>
    p.matchesList ++
      (match p.continuationToken with
       | some _ => rawFetch rest
       | none => [])

/-- A sample successful-attempt record. -/
def sampleSuccess : CancellationLog :=
  { orderId := "S1", totalAmount := 500, orderStatus := "CANCELED"
    success := some true, message := msgCancelSuccess, tax := some 50 }

/-- A second sample successful-attempt record. -/
def sampleSuccess2 : CancellationLog :=
  { sampleSuccess with orderId := "S2" }

/-- A third sample successful-attempt record. -/
def sampleSuccess3 : CancellationLog :=
  { sampleSuccess with orderId := "S3" }

/-- A sample failed-attempt record. -/
def sampleFailure : CancellationLog :=
  { orderId := "F1", totalAmount := 1500, orderStatus := "PENDING"
    success := some false, message := msgAboveLimit
    failureReason := some "Valor acima do limite permitido" }

/-- A sample record with no boolean outcome flag, as a raw store row may
lack the field. -/
def sampleNoOutcome : CancellationLog :=
  { orderId := "N1", totalAmount := 10, orderStatus := "PENDING"
    success := none, message := "?" }

/-- A store that answers every query with two pages chained by a
continuation token, three success records in all. -/
def cexStore : Store := fun _ =>
  [.ok { matchesList := [sampleSuccess, sampleSuccess2]
         continuationToken := some "tok" },
   .ok { matchesList := [sampleSuccess3] }]

/-- Store contents interleaving one failure before three successes. -/
def underContents : List CancellationLog :=
  [sampleFailure, sampleSuccess2, sampleSuccess, sampleSuccess3]

/-- A store honouring the `limit 2` of the query string server-side: its
single response page is the first two of `underContents`, no token. -/
def underStore : Store := fun _ =>
  [.ok { matchesList := underContents.take 2 }]

/-- The spec's probe-result sequence `[true, true, false, false, true]`. -/
def probeSeq : List ProbeOutcome :=
  [.ok true, .ok true, .ok false, .ok false, .ok true]

end AxiomIntegration

namespace AxiomIntegration

/-! ## Claims about the cancellation domain logic -/

/-- C7: for every order with `totalAmount ≤ 1000` (inclusive) whose
status is not the cancelled state, `cancelOrder` returns a success
result whose tax is exactly `totalAmount / 10` and whose returned order
has status `"CANCELED"`. -/
theorem C7_cancel_success (o : Order)
    (hamt : o.totalAmount ≤ 1000) (hst : o.status ≠ "CANCELED") :
    (cancelOrder o).success = true ∧
    (cancelOrder o).tax = some (o.totalAmount / 10) ∧
    (cancelOrder o).order = some { o with status := "CANCELED" } := by
  simp [cancelOrder, canCancelOrder, hamt, hst]

/-- Witness for C7 at the spec's example order
`{id := "A1", totalAmount := 500, status := "PENDING"}`. -/
theorem C7_cancel_success_witness :
    (cancelOrder ⟨"A1", 500, "PENDING"⟩).success = true ∧
    (cancelOrder ⟨"A1", 500, "PENDING"⟩).tax = some ((500 : ℚ) / 10) ∧
    (cancelOrder ⟨"A1", 500, "PENDING"⟩).order =
      some ⟨"A1", 500, "CANCELED"⟩ :=
  C7_cancel_success ⟨"A1", 500, "PENDING"⟩ (by norm_num) (by decide)

/-- C8: orders with `totalAmount > 1000` fail with no tax field, and an
already-cancelled order with `totalAmount ≤ 1000` fails with the
already-cancelled message, not the amount-limit message. -/
theorem C8_cancel_failure_branches :
    (∀ o : Order, 1000 < o.totalAmount →
      (cancelOrder o).success = false ∧ (cancelOrder o).tax = none) ∧
    (∀ o : Order, o.status = "CANCELED" → o.totalAmount ≤ 1000 →
      (cancelOrder o).success = false ∧
      (cancelOrder o).message = msgAlreadyCanceled ∧
      (cancelOrder o).message ≠ msgAboveLimit) := by
  constructor
  · intro o h
    simp [cancelOrder, canCancelOrder, not_le.mpr h]
  · intro o hst hamt
    simp [cancelOrder, canCancelOrder, hamt, hst]
    decide

/-- Witness for C8 at the spec's example orders
`{id := "A2", totalAmount := 1500, status := "PENDING"}` and an
already-cancelled order of amount 500. -/
theorem C8_cancel_failure_branches_witness :
    ((cancelOrder ⟨"A2", 1500, "PENDING"⟩).success = false ∧
      (cancelOrder ⟨"A2", 1500, "PENDING"⟩).tax = none) ∧
    ((cancelOrder ⟨"A3", 500, "CANCELED"⟩).success = false ∧
      (cancelOrder ⟨"A3", 500, "CANCELED"⟩).message = msgAlreadyCanceled ∧
      (cancelOrder ⟨"A3", 500, "CANCELED"⟩).message ≠ msgAboveLimit) :=
  ⟨C8_cancel_failure_branches.1 ⟨"A2", 1500, "PENDING"⟩ (by norm_num),
   C8_cancel_failure_branches.2 ⟨"A3", 500, "CANCELED"⟩ rfl (by norm_num)⟩

/-- C9: every attempt record the cancellation service builds satisfies
the data-model invariant: never both tax and failureReason, tax only on
a record whose outcome flag is `true`, failureReason only on a record
whose outcome flag is `false`. -/
theorem C9_attempt_log_invariant (logData : LogData) (now : String) :
    ¬((buildAttemptLog logData now).tax.isSome = true ∧
      (buildAttemptLog logData now).failureReason.isSome = true) ∧
    ((buildAttemptLog logData now).tax.isSome = true →
      (buildAttemptLog logData now).success = some true) ∧
    ((buildAttemptLog logData now).failureReason.isSome = true →
      (buildAttemptLog logData now).success = some false) := by
  cases hs : logData.success <;>
    cases ht : logData.tax <;>
      cases hf : logData.failureReason <;>
        simp_all [buildAttemptLog, strTruthy] <;>
          split_ifs <;> simp

/-- Witness for C9 on the record built for a successful cancellation of
the spec's example order. -/
theorem C9_attempt_log_invariant_witness :
    ¬((buildAttemptLog (cancelOrderLogData ⟨"A1", 500, "PENDING"⟩)
          "2025-03-12T09:48:31Z").tax.isSome = true ∧
      (buildAttemptLog (cancelOrderLogData ⟨"A1", 500, "PENDING"⟩)
          "2025-03-12T09:48:31Z").failureReason.isSome = true) ∧
    ((buildAttemptLog (cancelOrderLogData ⟨"A1", 500, "PENDING"⟩)
          "2025-03-12T09:48:31Z").tax.isSome = true →
      (buildAttemptLog (cancelOrderLogData ⟨"A1", 500, "PENDING"⟩)
          "2025-03-12T09:48:31Z").success = some true) ∧
    ((buildAttemptLog (cancelOrderLogData ⟨"A1", 500, "PENDING"⟩)
          "2025-03-12T09:48:31Z").failureReason.isSome = true →
      (buildAttemptLog (cancelOrderLogData ⟨"A1", 500, "PENDING"⟩)
          "2025-03-12T09:48:31Z").success = some false) :=
  C9_attempt_log_invariant (cancelOrderLogData ⟨"A1", 500, "PENDING"⟩)
    "2025-03-12T09:48:31Z"

/-- C10: the call `cancelOrder(order)` leaves the caller's order object
unchanged — the source never assigns to it, building the cancelled order
as a spread copy — and on success the returned order is that fresh copy,
agreeing with the input on `id` and `totalAmount` and differing only in
`status`, which is `"CANCELED"`. -/
theorem C10_cancel_no_mutation (o : Order) :
    (cancelOrderCall o).2 = o ∧
    ((cancelOrderCall o).1.success = true →
      (cancelOrderCall o).1.order = some
        { id := o.id, totalAmount := o.totalAmount, status := "CANCELED" }) := by
  refine ⟨rfl, fun hs => ?_⟩
  by_cases hc : canCancelOrder o
  · by_cases hst : o.status = "CANCELED"
    · simp [cancelOrderCall, cancelOrder, hc, hst] at hs
    · simp [cancelOrderCall, cancelOrder, hc, hst]
  · simp [cancelOrderCall, cancelOrder, hc] at hs

/-- Witness for C10 at the spec's example order. -/
theorem C10_cancel_no_mutation_witness :
    (cancelOrderCall ⟨"A1", 500, "PENDING"⟩).2 = ⟨"A1", 500, "PENDING"⟩ ∧
    (cancelOrderCall ⟨"A1", 500, "PENDING"⟩).1.order =
      some ⟨"A1", 500, "CANCELED"⟩ :=
  ⟨(C10_cancel_no_mutation ⟨"A1", 500, "PENDING"⟩).1,
   (C10_cancel_no_mutation ⟨"A1", 500, "PENDING"⟩).2 (by decide)⟩

/-! ## Claims about the client and the log service -/

/-- C4: when the transport rejects, `ingestEvents` does not raise and
returns `{ingested := 0, failed := events.length}` with the error in
`failures`; under the same failure `logCancellationAttempt` returns
`false` without raising, and on a successful ingest of its one-event
batch it returns `true`. -/
theorem C4_ingest_fails_soft :
    (∀ (events : List CancellationLog) (m : String),
      ingestEvents events (.err m) =
        { ingested := 0, failed := events.length, failures := [m] }) ∧
    (∀ (log : CancellationLog) (now m : String),
      logCancellationAttempt log now (.err m) = false) ∧
    (∀ (log : CancellationLog) (now : String),
      logCancellationAttempt log now .ok = true) := by
  refine ⟨fun events m => rfl, fun log now m => rfl, fun log now => rfl⟩

/-- Helper: over records that all carry a boolean outcome flag, the
`success === true` records and the `success === false` records together
exhaust the list. -/
theorem filter_outcome_length_sum (logs : List CancellationLog)
    (h : ∀ l ∈ logs, l.success.isSome = true) :
    (logs.filter fun l => l.success == some true).length +
      (logs.filter fun l => l.success == some false).length =
      logs.length := by
  induction logs with
  | nil => simp
  | cons a as ih =>
    have ha := h a (List.mem_cons_self a as)
    have has : ∀ l ∈ as, l.success.isSome = true := fun l hl =>
      h l (List.mem_cons_of_mem a hl)
    rcases hs : a.success with _ | b
    · rw [hs] at ha
      simp at ha
    · have ihh := ih has
      cases b <;> simp [List.filter_cons, hs] <;> omega

/-- C3: the statistics count all fetched records in `totalAttempts`,
exactly the `success === true` records as successful and exactly the
`success === false` records as failed, so the buckets sum to the total
whenever every record carries a boolean outcome; a record lacking the
flag raises `totalAttempts` but neither bucket. -/
theorem C3_stats_counting (logs : List CancellationLog) :
    (computeStats logs).totalAttempts = logs.length ∧
    (computeStats logs).successfulCancellations =
      (logs.filter fun l => l.success == some true).length ∧
    (computeStats logs).failedCancellations =
      (logs.filter fun l => l.success == some false).length ∧
    ((∀ l ∈ logs, l.success.isSome = true) →
      (computeStats logs).successfulCancellations +
        (computeStats logs).failedCancellations =
        (computeStats logs).totalAttempts) ∧
    (∀ r : CancellationLog, r.success = none →
      (computeStats (logs ++ [r])).totalAttempts =
        (computeStats logs).totalAttempts + 1 ∧
      (computeStats (logs ++ [r])).successfulCancellations =
        (computeStats logs).successfulCancellations ∧
      (computeStats (logs ++ [r])).failedCancellations =
        (computeStats logs).failedCancellations) := by
  refine ⟨rfl, rfl, rfl, fun h => ?_, fun r hr => ?_⟩
  · simpa [computeStats] using filter_outcome_length_sum logs h
  · simp [computeStats, List.filter_append, hr]

/-- Witness for C3 on a concrete record mix: two clean outcomes plus one
record with no outcome flag. -/
theorem C3_stats_counting_witness :
    (computeStats [sampleSuccess, sampleFailure]).successfulCancellations +
      (computeStats [sampleSuccess, sampleFailure]).failedCancellations =
      (computeStats [sampleSuccess, sampleFailure]).totalAttempts ∧
    (computeStats ([sampleSuccess, sampleFailure] ++ [sampleNoOutcome])).totalAttempts =
      (computeStats [sampleSuccess, sampleFailure]).totalAttempts + 1 ∧
    (computeStats ([sampleSuccess, sampleFailure] ++ [sampleNoOutcome])).successfulCancellations =
      (computeStats [sampleSuccess, sampleFailure]).successfulCancellations ∧
    (computeStats ([sampleSuccess, sampleFailure] ++ [sampleNoOutcome])).failedCancellations =
      (computeStats [sampleSuccess, sampleFailure]).failedCancellations :=
  ⟨(C3_stats_counting [sampleSuccess, sampleFailure]).2.2.2.1 (by decide),
   (C3_stats_counting [sampleSuccess, sampleFailure]).2.2.2.2
      sampleNoOutcome rfl⟩

/-- C6: `queryWithAPL` passes backend query results and rejections
through unchanged, and `getCancellationStats` returns the computed
statistics when the underlying query succeeds and raises a wrapped,
descriptive error exactly when the underlying query raises. -/
theorem C6_stats_error_propagation :
    (∀ backend : Except String QueryPage, queryWithAPL backend = backend) ∧
    (∀ (ds : String) (store : Store) (logs : List CancellationLog),
      queryCancellationLogs none (store (statsQuery ds)) = .ok logs →
      getCancellationStats ds store = .ok (computeStats logs)) ∧
    (∀ (ds : String) (store : Store) (e : String),
      queryCancellationLogs none (store (statsQuery ds)) = .error e →
      getCancellationStats ds store =
        .error ("Failed to get cancellation statistics: " ++ e)) ∧
    (∀ (ds : String) (store : Store),
      (∃ e, getCancellationStats ds store = .error e) ↔
      (∃ e, queryCancellationLogs none (store (statsQuery ds)) = .error e)) := by
  refine ⟨fun backend => ?_, fun ds store logs h => ?_, fun ds store e h => ?_,
    fun ds store => ?_⟩
  · cases backend <;> rfl
  · simp [getCancellationStats, h, Except.map]
  · simp [getCancellationStats, h, Except.map]
  · rcases hq : queryCancellationLogs none (store (statsQuery ds)) with e | logs
    · simp [getCancellationStats, hq, Except.map]
    · simp [getCancellationStats, hq, Except.map]

/-- Witness for C6 with a store whose single response is a rejection:
the statistics call raises the doubly wrapped descriptive error, while a
successful response yields the computed statistics. -/
theorem C6_stats_error_propagation_witness :
    queryWithAPL (.error "boom") = .error "boom" ∧
    getCancellationStats "inteli" (fun _ => [.error "boom"]) =
      .error ("Failed to get cancellation statistics: " ++
        "Failed to query cancellation logs: boom") ∧
    getCancellationStats "inteli" (fun _ => [.ok ⟨[sampleSuccess], none⟩]) =
      .ok (computeStats [sampleSuccess]) :=
  ⟨C6_stats_error_propagation.1 (.error "boom"),
   C6_stats_error_propagation.2.2.1 "inteli" (fun _ => [.error "boom"])
      "Failed to query cancellation logs: boom" rfl,
   C6_stats_error_propagation.2.1 "inteli"
      (fun _ => [.ok ⟨[sampleSuccess], none⟩]) [sampleSuccess] rfl⟩

/-- Helper: with no client-side limit the pagination loop accumulates
exactly `rawFetch` of the store's pages. -/
theorem fetchLoop_none_eq (pages : List QueryPage) :
    ∀ acc, fetchLoop none (pages.map Except.ok) acc = .ok (acc ++ rawFetch pages) := by
  induction pages with
  | nil =>
    intro acc
    simp [fetchLoop, rawFetch]
  | cons p ps ih =>
    intro acc
    rcases hc : p.continuationToken with _ | tok <;>
      simp [fetchLoop, queryWithAPL, limitReached, rawFetch, hc, ih]

/-- Helper: the no-limit entry point fetches exactly `rawFetch`. -/
theorem queryCancellationLogs_none_eq (pages : List QueryPage) :
    queryCancellationLogs none (pages.map Except.ok) = .ok (rawFetch pages) := by
  simp [queryCancellationLogs, fetchLoop_none_eq]

/-- Helper: with a positive client-side limit the pagination loop
returns the `limit`-prefix of the no-limit accumulation. -/
theorem fetchLoop_some_eq (l : Nat) (hl : 0 < l) (pages : List QueryPage) :
    ∀ acc, acc.length < l →
      fetchLoop (some l) (pages.map Except.ok) acc =
        .ok ((acc ++ rawFetch pages).take l) := by
  induction pages with
  | nil =>
    intro acc hacc
    simp [fetchLoop, rawFetch, List.take_of_length_le (le_of_lt hacc)]
  | cons p ps ih =>
    intro acc hacc
    by_cases hlim : l ≤ acc.length + p.matchesList.length
    · have hr : limitReached (some l) (acc.length + p.matchesList.length) = true := by
        simp [limitReached]
        omega
      have hlim2 : l ≤ (acc ++ p.matchesList).length := by
        simpa using hlim
      rcases hc : p.continuationToken with _ | tok
      · simp [fetchLoop, queryWithAPL, hc, hr, rawFetch]
      · simp [fetchLoop, queryWithAPL, hc, hr, rawFetch]
        rw [← List.append_assoc, List.take_append_of_le_length hlim2]
    · have hlt : acc.length + p.matchesList.length < l := not_le.mp hlim
      have hr : limitReached (some l) (acc.length + p.matchesList.length) = false := by
        simp [limitReached]
        omega
      have hlt2 : (acc ++ p.matchesList).length ≤ l := by
        simp
        omega
      rcases hc : p.continuationToken with _ | tok
      · simp [fetchLoop, queryWithAPL, hc, hr, rawFetch,
          List.take_of_length_le hlt2]
      · simpa [fetchLoop, queryWithAPL, hc, hr, rawFetch] using
          ih (acc ++ p.matchesList) (by simpa using hlt)

/-- C2 counterexample: a store chains two pages by a continuation token,
three records in all; `getSuccessfulCancellations` called with limit 1
still fetches (and returns) all three records, because the helper is
invoked without the `limit` argument, so the fetched raw sequence
exceeds the caller's limit. -/
theorem C2_counterexample :
    queryCancellationLogs none (cexStore (successQuery "inteli" 1)) =
      .ok [sampleSuccess, sampleSuccess2, sampleSuccess3] ∧
    getSuccessfulCancellations "inteli" 1 cexStore =
      .ok [sampleSuccess, sampleSuccess2, sampleSuccess3] ∧
    ¬([sampleSuccess, sampleSuccess2, sampleSuccess3].length ≤ 1) := by
  refine ⟨rfl, rfl, by simp⟩

/-- C2 (amended): when the pagination helper itself receives a positive
`limit` it stops once the accumulated count reaches it and truncates to
exactly `limit` — its result is the `limit`-prefix of the unlimited
fetch, so it never exceeds `limit` and is exactly `limit` long whenever
the store holds at least `limit` reachable records. But
`getSuccessfulCancellations` and `getFailedCancellations` invoke the
helper without the `limit` argument (the limit appears only inside the
query string sent to the store), so their client-side behaviour is
independent of `limit`: their raw fetch is bounded only by the store's
token chain. -/
theorem C2_pagination_amended :
    (∀ l : Nat, 0 < l → ∀ pages : List QueryPage,
      queryCancellationLogs (some l) (pages.map Except.ok) =
        .ok ((rawFetch pages).take l)) ∧
    (∀ (l : Nat) (pages : List QueryPage),
      ((rawFetch pages).take l).length ≤ l) ∧
    (∀ (l : Nat) (pages : List QueryPage), l ≤ (rawFetch pages).length →
      ((rawFetch pages).take l).length = l) ∧
    (∀ (ds : String) (l1 l2 : Nat) (store1 store2 : Store),
      store1 (successQuery ds l1) = store2 (successQuery ds l2) →
      getSuccessfulCancellations ds l1 store1 =
        getSuccessfulCancellations ds l2 store2) ∧
    (∀ (ds : String) (l1 l2 : Nat) (store1 store2 : Store),
      store1 (failedQuery ds l1) = store2 (failedQuery ds l2) →
      getFailedCancellations ds l1 store1 =
        getFailedCancellations ds l2 store2) := by
  refine ⟨fun l hl pages => ?_, fun l pages => ?_, fun l pages h => ?_,
    fun ds l1 l2 store1 store2 h => ?_, fun ds l1 l2 store1 store2 h => ?_⟩
  · have h := fetchLoop_some_eq l hl pages [] (by simpa using hl)
    simp at h
    simp [queryCancellationLogs, h]
  · simp
  · simp [List.length_take]
    omega
  · simp [getSuccessfulCancellations, h]
  · simp [getFailedCancellations, h]

/-- Witness for C2 (amended) on the two-page store: with limit 2 the
helper truncates the three reachable records to exactly two. -/
theorem C2_pagination_amended_witness :
    queryCancellationLogs (some 2)
        ([{ matchesList := [sampleSuccess, sampleSuccess2]
            continuationToken := some "tok" },
          { matchesList := [sampleSuccess3] }].map
          (Except.ok (ε := String))) =
      .ok ((rawFetch
        [{ matchesList := [sampleSuccess, sampleSuccess2]
           continuationToken := some "tok" },
         { matchesList := [sampleSuccess3] }]).take 2) ∧
    getSuccessfulCancellations "inteli" 1 cexStore =
      getSuccessfulCancellations "inteli" 100 cexStore :=
  ⟨C2_pagination_amended.1 2 (by decide)
      [{ matchesList := [sampleSuccess, sampleSuccess2]
         continuationToken := some "tok" },
       { matchesList := [sampleSuccess3] }],
   C2_pagination_amended.2.2.2.1 "inteli" 1 100 cexStore cexStore rfl⟩

/-- C5: both listing calls send the same query string, each returns
exactly the `success`-filtered (resp. failure-filtered) subsequence of
the raw fetched page, and on a store honouring the `limit` server-side
over interleaved contents the returned count falls below `limit` even
though further matching records exist beyond the unfiltered page, with
no re-query to backfill. -/
theorem C5_client_side_filtering :
    (∀ (ds : String) (limit : Nat), successQuery ds limit = failedQuery ds limit) ∧
    (∀ (ds : String) (limit : Nat) (store : Store) (pages : List QueryPage),
      store (successQuery ds limit) = pages.map Except.ok →
      getSuccessfulCancellations ds limit store =
        .ok ((rawFetch pages).filter fun l => l.success == some true)) ∧
    (∀ (ds : String) (limit : Nat) (store : Store) (pages : List QueryPage),
      store (failedQuery ds limit) = pages.map Except.ok →
      getFailedCancellations ds limit store =
        .ok ((rawFetch pages).filter fun l => l.success == some false)) ∧
    (∀ (ds : String) (limit : Nat) (store : Store) (logs : List CancellationLog),
      getSuccessfulCancellations ds limit store = .ok logs →
      ∀ l ∈ logs, l.success = some true) ∧
    (∀ (ds : String) (limit : Nat) (store : Store) (logs : List CancellationLog),
      getFailedCancellations ds limit store = .ok logs →
      ∀ l ∈ logs, l.success = some false) ∧
    (getSuccessfulCancellations "inteli" 2 underStore = .ok [sampleSuccess2] ∧
      ¬(2 ≤ [sampleSuccess2].length) ∧
      (underContents.filter fun l => l.success == some true).length = 3) := by
  refine ⟨fun ds limit => rfl, fun ds limit store pages h => ?_,
    fun ds limit store pages h => ?_, fun ds limit store logs h => ?_,
    fun ds limit store logs h => ?_, ⟨rfl, by simp, by decide⟩⟩
  · simp [getSuccessfulCancellations, h, queryCancellationLogs_none_eq, Except.map]
  · simp [getFailedCancellations, h, queryCancellationLogs_none_eq, Except.map]
  · rcases hq : queryCancellationLogs none (store (successQuery ds limit)) with e | raws
    · simp [getSuccessfulCancellations, hq, Except.map] at h
    · simp [getSuccessfulCancellations, hq, Except.map] at h
      subst h
      intro l hl
      simpa using (List.mem_filter.mp hl).2
  · rcases hq : queryCancellationLogs none (store (failedQuery ds limit)) with e | raws
    · simp [getFailedCancellations, hq, Except.map] at h
    · simp [getFailedCancellations, hq, Except.map] at h
      subst h
      intro l hl
      simpa using (List.mem_filter.mp hl).2

/-- Witness for C5 on the limit-honouring store over interleaved
contents. -/
theorem C5_client_side_filtering_witness :
    getSuccessfulCancellations "inteli" 2 underStore =
      .ok ((rawFetch [{ matchesList := underContents.take 2 }]).filter
        fun l => l.success == some true) ∧
    getFailedCancellations "inteli" 2 underStore =
      .ok ((rawFetch [{ matchesList := underContents.take 2 }]).filter
        fun l => l.success == some false) :=
  ⟨C5_client_side_filtering.2.1 "inteli" 2 underStore
      [{ matchesList := underContents.take 2 }] rfl,
   C5_client_side_filtering.2.2.1 "inteli" 2 underStore
      [{ matchesList := underContents.take 2 }] rfl⟩

/-! ## Claims about the health monitor -/

/-- C1 counterexample: the probe-result sequence
`[true, true, false, false, true]` starting from the unknown state
yields exactly 3 status-changed notifications (unknown→healthy,
healthy→unhealthy, unhealthy→healthy), not 2 as claimed: the first
check already fires the unknown→healthy transition. -/
theorem C1_counterexample :
    countStatusChanged (runChecks HealthStatus.unknown 0 probeSeq) = 3 ∧
    countStatusChanged (runChecks HealthStatus.unknown 0 probeSeq) ≠ 2 := by
  decide

/-- C1 (amended): `check` is total (never raises). On a boolean probe
result it maps `true` to healthy and `false` to unhealthy, and emits the
status-changed notification (old, new, timestamp) followed by the
status-specific one exactly when the computed status differs from the
stored one, nothing when unchanged. On a raised probe error it sets the
status to unhealthy and emits only the status-specific unhealthy
notification, unconditionally — even when the status was already
unhealthy — and without any status-changed notification. The sequence
`[true, true, false, false, true]` from the unknown state yields exactly
3 status-changed notifications, with no duplicate for the second
consecutive `false` or `true`. -/
theorem C1_check_amended :
    (∀ (st : HealthStatus) (t : Nat) (b : Bool),
      (if b then HealthStatus.healthy else HealthStatus.unhealthy) = st →
      check st t (.ok b) = (st, [])) ∧
    (∀ (st : HealthStatus) (t : Nat) (b : Bool),
      (if b then HealthStatus.healthy else HealthStatus.unhealthy) ≠ st →
      check st t (.ok b) =
        (if b then HealthStatus.healthy else HealthStatus.unhealthy,
         [HCEvent.statusChanged st
            (if b then HealthStatus.healthy else HealthStatus.unhealthy) t,
          if b then HCEvent.healthyEvt else HCEvent.unhealthyEvt])) ∧
    (∀ (st : HealthStatus) (t : Nat),
      check st t .err = (HealthStatus.unhealthy, [HCEvent.unhealthyEvt])) ∧
    countStatusChanged (runChecks HealthStatus.unknown 0 probeSeq) = 3 := by
  refine ⟨fun st t b h => ?_, fun st t b h => ?_, fun st t => rfl, by decide⟩
  · cases b <;> simp_all [check]
  · cases b <;> simp_all [check]

/-- Witness for C1 (amended): an unchanged healthy status emits nothing;
the first healthy result after unknown emits the transition pair; a
probe error with the status already unhealthy still emits the unhealthy
notification. -/
theorem C1_check_amended_witness :
    check HealthStatus.healthy 7 (.ok true) = (HealthStatus.healthy, []) ∧
    check HealthStatus.unknown 0 (.ok true) =
      (HealthStatus.healthy,
       [HCEvent.statusChanged HealthStatus.unknown HealthStatus.healthy 0,
        HCEvent.healthyEvt]) ∧
    check HealthStatus.unhealthy 3 .err =
      (HealthStatus.unhealthy, [HCEvent.unhealthyEvt]) :=
  ⟨C1_check_amended.1 HealthStatus.healthy 7 true (by decide),
   by simpa using C1_check_amended.2.1 HealthStatus.unknown 0 true (by decide),
   C1_check_amended.2.2.1 HealthStatus.unhealthy 3⟩

end AxiomIntegration
